import Mathlib

/-!
Verification of the location-state mechanism of `ari_sxn_common`.

This file gives a shallow embedding of `DeviceWithLocations` and its inner
`LocationSignal` class from `src/ari_sxn_common/common_ophyd.py`, together
with the earlier revision `DeviceWithLocations` (its `LocationSignal.get`
and `set_location`) from `src/ari_sxn_common/ophyd_devices.py`, and proves
the behavioural properties of the location abstraction: membership
evaluation, coordinated moves, status aggregation and the error paths.

Conventions of the embedding:
* Python floats are embedded as exact rationals (`ℚ`); the comparisons in
  the source are pure order comparisons, so no rounding is modelled.
* A Python runtime value that can reach `LocationSignal.get` is a `PyVal`.
* Exceptions are modelled with `Except PyError`.
* An ophyd status object is modelled by the snapshot of its `done` and
  `success` flags; the `&` operator on statuses (ophyd `AndStatus`) is
  done/success conjunction.
-/

namespace AriSxn

/-- A Python runtime value as seen by `LocationSignal.get`:
floats, ints, strings, booleans, the `Locations` namedtuple produced by a
nested `LocationSignal` (a tuple of booleans keyed by location name),
Python `None`, and a catch-all for every other runtime type. -/
inductive PyVal where
  | float (q : ℚ)
  | int (n : ℤ)
  | str (s : String)
  | bool (b : Bool)
  | locTuple (fields : List (String × Bool))
  | none
  | other (tag : String)
deriving DecidableEq

/-- Python numeric coercion for arithmetic and comparison: floats and ints
are numbers and `True`/`False` count as `1`/`0`. Everything else is not a
number. -/
def pyNum : PyVal → Option ℚ
  | .float q => some q
  | .int n => some (n : ℚ)
  | .bool b => some (if b then 1 else 0)
  | _ => Option.none

/-- Python `==` on the values of the embedding: numbers compare by value
(so `True == 1` and `1 == 1.0` hold), strings compare as strings, and all
remaining cross-type comparisons are `False` (as for Python builtins). -/
def pyEq (a b : PyVal) : Bool :=
  match pyNum a, pyNum b with
  | some x, some y => x == y
  | _, _ =>
    match a, b with
    | .str s, .str t => s == t
    | _, _ => false

/-- One entry of an `AxisTargetSet`: the `(location position, location
precision)` tuple stored in `locations_data`.  `target` is `data[0]` and
`tol` is `data[1]` of the source. -/
structure TargetData where
  target : PyVal
  tol : PyVal
deriving DecidableEq

/-- Snapshot of an ophyd status object: its `done` and `success` flags. -/
structure Status where
  done : Bool
  success : Bool
deriving DecidableEq

/-- The ophyd `&` operator on two statuses (`AndStatus`): the combination
is done when both are done and successful when both are successful. -/
def andStatus (s t : Status) : Status :=
  { done := s.done && t.done, success := s.success && t.success }

/-- An axis (`getattr(self.parent, signal_name)`) as probed by
`LocationSignal.get`: an optional `position` attribute, an optional
`get()` capability, and whether the resolved object is itself a
`LocationSignal` (the `isinstance(..., type(self))` test of the source). -/
structure Axis where
  position : Option PyVal
  getValue : Option PyVal
  isLocationSignal : Bool
deriving DecidableEq

/-- The single-quote character `chr(39)` used by Python `repr` of a string. -/
def quoteChar : Char := Char.ofNat 39

/-- A string key as rendered inside Python `repr` of a list of strings. -/
def quoted (k : String) : String :=
  String.singleton quoteChar ++ k ++ String.singleton quoteChar

/-- The comma-separated body of Python `repr` of a list of strings. -/
def commaJoin : List String → String
  | [] => ""
  | [k] => quoted k
  | k :: rest => quoted k ++ ", " ++ commaJoin rest

/-- Python `repr` of a list of strings, as interpolated by the f-strings of
the source (`f'... to be in \x7blist(self.parent._locations_data.keys())\x7d'`);
keys are plain names, so no escaping arises. -/
def pyReprStrList (keys : List String) : String :=
  "[" ++ commaJoin keys ++ "]"

/-- The `KeyError` message raised by `LocationSignal.set` for an unknown
location (common_ophyd.py lines 561-564). -/
def set_keyerror_msg (signalName value : String) (keys : List String) : String :=
  "A call to " ++ signalName ++ ".set() expected input, " ++ value ++
    ", to be in " ++ pyReprStrList keys

/-- The `KeyError` message raised by `set_location` for an unknown location
(ophyd_devices.py lines 157-160). -/
def set_location_keyerror_msg (deviceName location : String)
    (keys : List String) : String :=
  "A call to " ++ deviceName ++ ".set_location expected input, " ++ location ++
    ", to be in " ++ pyReprStrList keys

/-- The `AttributeError` message of `LocationSignal.get` for an axis with
neither a `position` nor a `get` attribute (common_ophyd.py lines
492-503); `str(self.parent)` is abbreviated to the parent's name. -/
def unsupported_axis_msg (parentName signalName : String) : String :=
  "during a call to " ++ parentName ++ ".locations.get() a signal (" ++
    signalName ++ ") from " ++ parentName ++
    "._location_data was found to not have a supported attribute. " ++
    "Presently supported attributes are " ++ parentName ++ signalName ++
    ".position and " ++ parentName ++ signalName ++ ".get()"

/-- The `ValueError` message of `LocationSignal.get` for a value of an
unsupported runtime type (common_ophyd.py lines 516-525); the interpolated
value is abbreviated to its tag. -/
def unsupported_value_msg (parentName valueTag : String) : String :=
  "during a call to " ++ parentName ++ ".locations.get()a value (" ++
    valueTag ++ ") from " ++ parentName ++
    "._location_data was found to be a non-supported data-type. " ++
    "Presently supported data-types are floats, ints and strings or " ++
    "lists from DeviceWithLocations LocationSignal signals"

/-- The Python exceptions raised by the modelled code. -/
inductive PyError where
  | attributeError (msg : String)
  | valueError (msg : String)
  | typeError (msg : String)
  | keyError (msg : String)
deriving DecidableEq

/-- A rendering of a `PyVal`'s type used only inside error messages. -/
def PyVal.tag : PyVal → String
  | .float _ => "float"
  | .int _ => "int"
  | .str _ => "str"
  | .bool _ => "bool"
  | .locTuple _ => "tuple"
  | .none => "None"
  | .other t => t

/-- The chain of membership tests applied by `LocationSignal.get` to one
axis value (common_ophyd.py lines 505-525), in source order:
* `isinstance(value, float)`: the strict interval test
  `data[0] - data[1] < value < data[0] + data[1]` (a `TypeError` if the
  target or tolerance is not a number, as Python arithmetic would raise);
* `isinstance(getattr(self.parent, signal_name), type(self))`: the
  Python `in` test `data[0] in value`; the value delivered by a
  `LocationSignal` is always its `Locations` namedtuple of booleans, and
  `in` on a namedtuple compares the target against its field values
  (`TypeError` outside this fragment, where `in` is not defined);
* `isinstance(value, (int, str))`: Python equality `data[0] == value`
  (booleans are Python ints, so they take this branch too);
* otherwise: the `ValueError` of lines 516-525. -/
def value_check (parentName : String) (isLocSig : Bool) (data : TargetData) :
    PyVal → Except PyError Bool
  | .float q =>
    match pyNum data.target, pyNum data.tol with
    | some t, some tol => .ok (decide (t - tol < q) && decide (q < t + tol))
    | _, _ => .error (.typeError "unsupported operand type for - or +")
  | v =>
    if isLocSig then
      match v with
      | .locTuple fields => .ok (fields.any fun f => pyEq data.target (.bool f.2))
      | _ => .error (.typeError "argument of type is not iterable")
    else
      match v with
      | .int n => .ok (pyEq data.target (.int n))
      | .str s => .ok (pyEq data.target (.str s))
      | .bool b => .ok (pyEq data.target (.bool b))
      | w => .error (.valueError (unsupported_value_msg parentName w.tag))

/-- The capability probe of `LocationSignal.get` (common_ophyd.py lines
485-503): use the `position` attribute if the axis has one, else call
`get()`, else raise the `AttributeError`. -/
def axis_value (parentName signalName : String) (a : Axis) :
    Except PyError PyVal :=
  match a.position with
  | some v => .ok v
  | Option.none =>
    match a.getValue with
    | some v => .ok v
    | Option.none =>
      .error (.attributeError (unsupported_axis_msg parentName signalName))

/-- The full per-axis pipeline of `LocationSignal.get` for one
`(signal_name, data)` pair: resolve the axis on the parent (`getattr`
raises `AttributeError` when the attribute does not exist), probe its
current value, and apply the membership test. -/
def axis_test (parentName : String) (axes : String → Option Axis)
    (signalName : String) (data : TargetData) : Except PyError Bool :=
  match axes signalName with
  | Option.none =>
    .error (.attributeError (parentName ++ " object has no attribute " ++
      signalName))
  | some a =>
    match axis_value parentName signalName a with
    | .error e => .error e
    | .ok v => value_check parentName a.isLocationSignal data v

/-- The inner loop of `LocationSignal.get` for one location: build
`value_check` for every `(signal_name, data)` pair of the location's data
and combine with `all(value_check)`.  Every pair is visited (the source
collects the whole list before `all`), so an exception from a later axis
propagates even when an earlier test was already false. -/
def location_check (parentName : String) (axes : String → Option Axis) :
    List (String × TargetData) → Except PyError Bool
  | [] => .ok true
  | (n, d) :: rest =>
    match axis_test parentName axes n d with
    | .error e => .error e
    | .ok b =>
      match location_check parentName axes rest with
      | .error e => .error e
      | .ok r => .ok (b && r)

/-- The outer loop of `LocationSignal.get` (common_ophyd.py lines
476-529): for every `(location, location_data)` entry of
`self.parent._locations_data`, record whether the parent is in that
location.  The result is the field list of the `Locations` namedtuple the
method then `put`s. -/
def locations_get (parentName : String) (axes : String → Option Axis) :
    List (String × List (String × TargetData)) →
      Except PyError (List (String × Bool))
  | [] => .ok []
  | (loc, ld) :: rest =>
    match location_check parentName axes ld with
    | .error e => .error e
    | .ok b =>
      match locations_get parentName axes rest with
      | .error e => .error e
      | .ok r => .ok ((loc, b) :: r)

/-- The set of location names a `Locations` namedtuple reports the device
to be in: the fields holding `True`. -/
def trueNames (r : List (String × Bool)) : List String :=
  (r.filter fun p => p.2).map fun p => p.1

/-- `LocationSignal.get` with the signal's stored value made explicit:
the method computes the membership tuple, `put`s it (replacing whatever
value `stored` the signal held), and then returns `super().get()`, which
reads the value just put.  The result is the pair
`(returned value, new stored value)`. -/
def LocationSignal_get (parentName : String) (axes : String → Option Axis)
    (locations_data : List (String × List (String × TargetData)))
    (stored : PyVal) : Except PyError (PyVal × PyVal) :=
  match locations_get parentName axes locations_data with
  | .error e => .error e
  | .ok l => .ok (.locTuple l, .locTuple l)

/-- `LocationSignal.set` (common_ophyd.py lines 535-575).  The unknown-key
path raises the `KeyError` of lines 561-564 before any axis is touched.
Otherwise the method issues `getattr(self.parent, signal).set(data[0])`
for every `(signal, data)` pair of the location's data, chaining the
statuses with `&` starting from the `super().set()` status, which is
forced to completion by `status_list[0].set_finished()` (done and
successful).  `axisSet` gives the status returned by each axis's `set`;
the result records the issued `(axis, target)` commands and the combined
status returned to the caller. -/
def LocationSignal_set
    (locations_data : List (String × List (String × TargetData)))
    (signalName : String) (axisSet : String → PyVal → Status)
    (value : String) :
    Except PyError (List (String × PyVal) × Status) :=
  match List.lookup value locations_data with
  | Option.none =>
    .error (.keyError (set_keyerror_msg signalName value
      (locations_data.map Prod.fst)))
  | some location_data =>
    .ok (location_data.map fun p => (p.1, p.2.target),
      (location_data.map fun p => axisSet p.1 p.2.target).foldl andStatus
        { done := true, success := true })

/-- The per-axis set commands a call to `LocationSignal.set` issued: none
when it raised, the recorded fan-out otherwise. -/
def issued_commands (r : Except PyError (List (String × PyVal) × Status)) :
    List (String × PyVal) :=
  match r with
  | .error _ => []
  | .ok (l, _) => l

/-- `DeviceWithLocations.set_location` of ophyd_devices.py (lines
149-167), up to the command fan-out: the unknown-key path raises the
`KeyError` of lines 157-160 before any motor is touched; otherwise one
`getattr(self, motor).set(data[0])` is issued per entry (the subsequent
`wait` on each status is not part of any claim and is not modelled). -/
def set_location
    (locations_data : List (String × List (String × TargetData)))
    (deviceName : String) (location : String) :
    Except PyError (List (String × PyVal)) :=
  match List.lookup location locations_data with
  | Option.none =>
    .error (.keyError (set_location_keyerror_msg deviceName location
      (locations_data.map Prod.fst)))
  | some location_data =>
    .ok (location_data.map fun p => (p.1, p.2.target))

/-- The membership test of the earlier `LocationSignal.get` revision
(ophyd_devices.py lines 124-128): a location is entered into the result
when every `(motor, data)` entry satisfies
`data[0] - data[1] < position < data[0] + data[1]`. -/
def motor_in_location (position : String → ℚ)
    (location_data : List (String × (ℚ × ℚ))) : Bool :=
  location_data.all fun p =>
    decide (p.2.1 - p.2.2 < position p.1) && decide (position p.1 < p.2.1 + p.2.2)

/-- `needle` occurs as a contiguous substring of `haystack`. -/
def contains_str (needle haystack : String) : Prop :=
  ∃ p q : List Char, haystack.data = p ++ needle.data ++ q

/-- The location table of the spec's concrete scenario
`\x7b"in": \x7b"x": (-12.7, 0.1)\x7d, "out": \x7b"x": (28, 0.1)\x7d\x7d`. -/
def in_out_table : List (String × List (String × TargetData)) :=
  [("in", [("x", ⟨.float (-127/10), .float (1/10)⟩)]),
   ("out", [("x", ⟨.float 28, .float (1/10)⟩)])]

/-- A parent device exposing one positioner axis `x` at position `q`. -/
def x_axes (q : ℚ) : String → Option Axis :=
  fun n => if n = "x" then some ⟨some (.float q), Option.none, false⟩
    else Option.none

/-- The location table of the spec's discrete scenario
`\x7b"open": \x7b"state": "Open"\x7d\x7d` (tolerance entry `None`). -/
def open_shutter_table : List (String × List (String × TargetData)) :=
  [("open", [("state", ⟨.str "Open", .none⟩)])]

/-- A parent device exposing one readback-signal axis `state` whose
`get()` returns the string `s`. -/
def shutter_axes (s : String) : String → Option Axis :=
  fun n => if n = "state" then some ⟨Option.none, some (.str s), false⟩
    else Option.none

/-- The Python keywords rejected as namedtuple field names. -/
def pyKeywords : List String :=
  ["False", "None", "True", "and", "as", "assert", "async", "await",
   "break", "class", "continue", "def", "del", "elif", "else", "except",
   "finally", "for", "from", "global", "if",
   "import", "in", "is", "lambda", "nonlocal", "not", "or", "pass",
   "raise", "return", "try", "while", "with", "yield"]

/-- Python `str.isidentifier` on the ASCII fragment: nonempty, first
character a letter or underscore, the rest letters, digits or
underscores. -/
def isPyIdentifier (s : String) : Bool :=
  match s.data with
  | [] => false
  | c :: cs => (c.isAlpha || c = '_') && cs.all fun x => x.isAlphanum || x = '_'

/-- The checks `collections.namedtuple` applies to one field name: a valid
identifier, not a keyword, not starting with an underscore. -/
def namedtuple_field_ok (s : String) : Bool :=
  isPyIdentifier s && !(pyKeywords.contains s) && !(s.startsWith "_")

/-- The validation performed by `collections.namedtuple(typename,
field_names)` (CPython, with `rename=False`): the typename must be an
identifier and no keyword, every field name must pass
`namedtuple_field_ok`, and field names must not repeat; otherwise a
`ValueError` is raised.  On success the created type is represented by
its field list. -/
def namedtuple (typename : String) (field_names : List String) :
    Except PyError (List String) :=
  if !(isPyIdentifier typename) || pyKeywords.contains typename then
    .error (.valueError ("Type names and field names must be valid identifiers: "
      ++ typename))
  else if !(field_names.all namedtuple_field_ok) then
    .error (.valueError "Type names and field names must be valid identifiers")
  else if field_names.Nodup then
    .ok field_names
  else
    .error (.valueError "Encountered duplicate field name")

/-- The state a successfully constructed `DeviceWithLocations` holds:
its `_locations_data` dictionary and the field list of its
`_LocationsTuple` namedtuple. -/
structure DeviceWithLocationsState where
  locations_data : List (String × List (String × TargetData))
  locationsFields : List String
deriving DecidableEq

/-- `DeviceWithLocations.__init__` (common_ophyd.py lines 589-602): store
`locations_data` and build
`namedtuple('Locations', self._locations_data.keys())`, whose validation
failure propagates out of the constructor. -/
def DeviceWithLocations_init
    (locations_data : List (String × List (String × TargetData))) :
    Except PyError DeviceWithLocationsState :=
  match namedtuple "Locations" (locations_data.map Prod.fst) with
  | .error e => .error e
  | .ok fields => .ok ⟨locations_data, fields⟩

/-! ## Helper lemmas -/

theorem contains_str_self (k : String) : contains_str k k :=
  ⟨[], [], by simp⟩

theorem contains_str_append_left {k s : String} (pre : String)
    (h : contains_str k s) : contains_str k (pre ++ s) := by
  obtain ⟨p, q, hd⟩ := h
  exact ⟨pre.data ++ p, q, by rw [String.data_append, hd]; simp⟩

theorem contains_str_append_right {k s : String} (post : String)
    (h : contains_str k s) : contains_str k (s ++ post) := by
  obtain ⟨p, q, hd⟩ := h
  exact ⟨p, q ++ post.data, by rw [String.data_append, hd]; simp⟩

theorem contains_str_quoted (k : String) : contains_str k (quoted k) :=
  contains_str_append_right _
    (contains_str_append_left (String.singleton quoteChar) (contains_str_self k))

theorem contains_str_commaJoin {k : String} :
    ∀ {keys : List String}, k ∈ keys → contains_str k (commaJoin keys) := by
  intro keys
  induction keys with
  | nil => intro h; cases h
  | cons a rest ih =>
    intro h
    cases rest with
    | nil =>
      have hk : k = a := by
        cases h with
        | head => rfl
        | tail _ h' => cases h'
      subst hk
      exact contains_str_quoted k
    | cons b rest' =>
      cases h with
      | head =>
        exact contains_str_append_right _
          (contains_str_append_right ", " (contains_str_quoted k))
      | tail _ h' =>
        exact contains_str_append_left (quoted a ++ ", ") (ih h')

theorem contains_str_pyReprStrList {k : String} {keys : List String}
    (h : k ∈ keys) : contains_str k (pyReprStrList keys) :=
  contains_str_append_right "]"
    (contains_str_append_left "[" (contains_str_commaJoin h))

theorem lookup_eq_none_of_not_mem {α : Type} {value : String}
    {l : List (String × α)} (h : value ∉ l.map Prod.fst) :
    List.lookup value l = Option.none := by
  induction l with
  | nil => rfl
  | cons e rest ih =>
    obtain ⟨ek, ev⟩ := e
    have h1 : (value == ek) = false := by
      refine beq_eq_false_iff_ne.mpr fun he => h ?_
      simp [he]
    have h2 : value ∉ rest.map Prod.fst := by
      intro hm; exact h (by simp [hm])
    rw [List.lookup, h1]
    exact ih h2

theorem foldl_andStatus_done (l : List Status) (b : Status) :
    (l.foldl andStatus b).done = (b.done && l.all fun s => s.done) := by
  induction l generalizing b with
  | nil => simp
  | cons s rest ih =>
    simp [List.foldl_cons, ih, andStatus, Bool.and_assoc]

theorem foldl_andStatus_success (l : List Status) (b : Status) :
    (l.foldl andStatus b).success = (b.success && l.all fun s => s.success) := by
  induction l generalizing b with
  | nil => simp
  | cons s rest ih =>
    simp [List.foldl_cons, ih, andStatus, Bool.and_assoc]

theorem location_check_ok_iff {pn : String} {axes : String → Option Axis}
    {ld : List (String × TargetData)} {b : Bool}
    (h : location_check pn axes ld = .ok b) :
    (b = true ↔ ∀ p ∈ ld, axis_test pn axes p.1 p.2 = .ok true) := by
  induction ld generalizing b with
  | nil =>
    simp only [location_check] at h
    cases h
    simp
  | cons e rest ih =>
    obtain ⟨n, d⟩ := e
    simp only [location_check] at h
    cases ht : axis_test pn axes n d with
    | error e' => rw [ht] at h; cases h
    | ok b1 =>
      rw [ht] at h
      cases hr : location_check pn axes rest with
      | error e' => rw [hr] at h; cases h
      | ok b2 =>
        rw [hr] at h
        cases h
        have ihr := ih hr
        constructor
        · intro hb p hp
          rcases List.mem_cons.mp hp with hp | hp
          · subst hp
            rw [ht]
            exact congrArg Except.ok (Bool.and_elim_left hb)
          · exact (ihr.mp (Bool.and_elim_right hb)) p hp
        · intro hall
          have h1 : b1 = true := by
            have := hall (n, d) (List.mem_cons_self _ _)
            rw [ht] at this
            exact (Except.ok.injEq _ _).mp this.symm |>.symm
          have h2 : b2 = true :=
            ihr.mpr (fun p hp => hall p (List.mem_cons_of_mem _ hp))
          rw [h1, h2]
          rfl

theorem locations_get_forall₂ {pn : String} {axes : String → Option Axis} :
    ∀ {table : List (String × List (String × TargetData))}
      {r : List (String × Bool)}, locations_get pn axes table = .ok r →
      List.Forall₂
        (fun (p : String × List (String × TargetData)) (q : String × Bool) =>
          p.1 = q.1 ∧ location_check pn axes p.2 = .ok q.2) table r := by
  intro table
  induction table with
  | nil =>
    intro r h
    simp only [locations_get] at h
    cases h
    exact List.Forall₂.nil
  | cons e rest ih =>
    intro r h
    obtain ⟨loc, ld⟩ := e
    simp only [locations_get] at h
    cases hc : location_check pn axes ld with
    | error e' => rw [hc] at h; cases h
    | ok b =>
      rw [hc] at h
      cases hr : locations_get pn axes rest with
      | error e' => rw [hr] at h; cases h
      | ok r' =>
        rw [hr] at h
        cases h
        exact List.Forall₂.cons ⟨rfl, hc⟩ (ih hr)

theorem forall₂_mem_left {α β : Type} {R : α → β → Prop} :
    ∀ {l₁ : List α} {l₂ : List β}, List.Forall₂ R l₁ l₂ → ∀ {a : α},
      a ∈ l₁ → ∃ b ∈ l₂, R a b := by
  intro l₁ l₂ h
  induction h with
  | nil => intro a ha; cases ha
  | cons hR _ ih =>
    intro a ha
    cases ha with
    | head => exact ⟨_, List.mem_cons_self _ _, hR⟩
    | tail _ h' =>
      obtain ⟨b, hb, hRb⟩ := ih h'
      exact ⟨b, List.mem_cons_of_mem _ hb, hRb⟩

theorem forall₂_mem_right {α β : Type} {R : α → β → Prop} :
    ∀ {l₁ : List α} {l₂ : List β}, List.Forall₂ R l₁ l₂ → ∀ {b : β},
      b ∈ l₂ → ∃ a ∈ l₁, R a b := by
  intro l₁ l₂ h
  induction h with
  | nil => intro b hb; cases hb
  | cons hR _ ih =>
    intro b hb
    cases hb with
    | head => exact ⟨_, List.mem_cons_self _ _, hR⟩
    | tail _ h' =>
      obtain ⟨a, ha, hRa⟩ := ih h'
      exact ⟨a, List.mem_cons_of_mem _ ha, hRa⟩

theorem mem_trueNames {n : String} {r : List (String × Bool)} :
    n ∈ trueNames r ↔ (n, true) ∈ r := by
  simp only [trueNames, List.mem_map, List.mem_filter]
  constructor
  · rintro ⟨⟨m, b⟩, ⟨hm, hb⟩, he⟩
    simp only at hb he
    subst he
    cases b
    · cases hb
    · exact hm
  · intro h
    exact ⟨(n, true), ⟨h, rfl⟩, rfl⟩

theorem axis_test_frame {pn n : String} {axes axes' : String → Option Axis}
    {d : TargetData} (h : axes' n = axes n) :
    axis_test pn axes' n d = axis_test pn axes n d := by
  simp only [axis_test, h]

theorem location_check_frame {pn : String} {axes axes' : String → Option Axis} :
    ∀ {ld : List (String × TargetData)},
      (∀ p ∈ ld, axes' p.1 = axes p.1) →
      location_check pn axes' ld = location_check pn axes ld := by
  intro ld
  induction ld with
  | nil => intro _; rfl
  | cons e rest ih =>
    intro h
    obtain ⟨n, d⟩ := e
    have h1 : axes' n = axes n := h (n, d) (List.mem_cons_self _ _)
    have h2 := ih fun p hp => h p (List.mem_cons_of_mem _ hp)
    simp only [location_check, axis_test_frame h1, h2]

theorem locations_get_frame {pn : String} {axes axes' : String → Option Axis} :
    ∀ {table : List (String × List (String × TargetData))},
      (∀ e ∈ table, ∀ p ∈ e.2, axes' p.1 = axes p.1) →
      locations_get pn axes' table = locations_get pn axes table := by
  intro table
  induction table with
  | nil => intro _; rfl
  | cons e rest ih =>
    intro h
    obtain ⟨loc, ld⟩ := e
    have h1 : location_check pn axes' ld = location_check pn axes ld :=
      location_check_frame fun p hp => h (loc, ld) (List.mem_cons_self _ _) p hp
    have h2 := ih fun e' he' p hp => h e' (List.mem_cons_of_mem _ he') p hp
    simp only [locations_get, h1, h2]

/-! ## Claim theorems -/

/-- C3: for every numeric target spec `(target, tol)` and every current
float axis value, the membership test of `LocationSignal.get` (and of the
earlier `ophyd_devices.py` revision) is satisfied iff
`target - tol < current < target + tol`, a strict open interval; the
boundary values `current = target - tol` and `current = target + tol` are
not members. -/
theorem spec_C3 (pn : String) (isLocSig : Bool) (t tol q : ℚ)
    (pos : String → ℚ) (name : String) :
    ((value_check pn isLocSig ⟨.float t, .float tol⟩ (.float q) = .ok true) ↔
      (t - tol < q ∧ q < t + tol)) ∧
    (value_check pn isLocSig ⟨.float t, .float tol⟩ (.float (t - tol)) =
      .ok false) ∧
    (value_check pn isLocSig ⟨.float t, .float tol⟩ (.float (t + tol)) =
      .ok false) ∧
    ((motor_in_location pos [(name, (t, tol))] = true) ↔
      (t - tol < pos name ∧ pos name < t + tol)) ∧
    (motor_in_location (fun _ => t - tol) [(name, (t, tol))] = false) ∧
    (motor_in_location (fun _ => t + tol) [(name, (t, tol))] = false) := by
  refine ⟨?_, ?_, ?_, ?_, ?_, ?_⟩
  · simp [value_check, pyNum]
  · simp [value_check, pyNum]
  · simp [value_check, pyNum]
  · simp [motor_in_location]
  · simp [motor_in_location]
  · simp [motor_in_location]

/-- C6: for every discrete target spec (string or int target, tolerance
ignored) and every current string or int axis value, the membership test
of `LocationSignal.get` is satisfied iff the current value equals the
target; in the scenario of the table
`\x7b"open": \x7b"state": "Open"\x7d\x7d`, a `state` axis reading `"Open"`
evaluates to the location set `\x7b"open"\x7d` and any other string
evaluates to the empty set. -/
theorem spec_C6 (pn : String) (tolv : PyVal) (t s : String) (m n : ℤ) :
    ((value_check pn false ⟨.str t, tolv⟩ (.str s) = .ok true) ↔ s = t) ∧
    ((value_check pn false ⟨.int m, tolv⟩ (.int n) = .ok true) ↔ n = m) ∧
    (locations_get pn (shutter_axes s) open_shutter_table =
      .ok [("open", ("Open" == s))]) ∧
    (trueNames [("open", ("Open" == s))] =
      if s = "Open" then ["open"] else []) := by
  refine ⟨?_, ?_, ?_, ?_⟩
  · constructor
    · intro h
      simp only [value_check, pyEq, pyNum] at h
      cases hb : (t == s) with
      | false => rw [hb] at h; cases h
      | true => exact (beq_iff_eq.mp hb).symm
    · intro h
      subst h
      simp [value_check, pyEq, pyNum]
  · constructor
    · intro h
      simp only [value_check, pyEq, pyNum] at h
      cases hb : (((m : ℚ)) == ((n : ℚ))) with
      | false => rw [hb] at h; cases h
      | true =>
        have := beq_iff_eq.mp hb
        exact_mod_cast this.symm
    · intro h
      subst h
      simp [value_check, pyEq, pyNum]
  · simp [locations_get, location_check, axis_test, axis_value, value_check,
      open_shutter_table, shutter_axes, pyEq, pyNum]
  · by_cases h : s = "Open"
    · subst h; simp [trueNames]
    · have hb : ("Open" == s) = false := beq_eq_false_iff_ne.mpr (Ne.symm h)
      simp [trueNames, hb, h]

/-- C2: for every location table and axis assignment, a successful
`LocationSignal.get` reports the device to be in exactly the locations
whose every axis spec is satisfied (the per-location tests combined with
logical AND, an axis absent from a location's spec imposing no
constraint), and the result only depends on the axes the table
references; the reported set may be empty or contain several names. -/
theorem spec_C2 (pn : String) (axes : String → Option Axis)
    (table : List (String × List (String × TargetData)))
    (r : List (String × Bool))
    (h : locations_get pn axes table = .ok r) :
    (∀ n, n ∈ trueNames r ↔
      ∃ ld, (n, ld) ∈ table ∧
        ∀ p ∈ ld, axis_test pn axes p.1 p.2 = .ok true) ∧
    (∀ axes', (∀ e ∈ table, ∀ p ∈ e.2, axes' p.1 = axes p.1) →
      locations_get pn axes' table = .ok r) := by
  have hf := locations_get_forall₂ h
  constructor
  · intro n
    constructor
    · intro hn
      obtain ⟨a, ha, hfst, hchk⟩ := forall₂_mem_right hf (mem_trueNames.mp hn)
      obtain ⟨m, ld⟩ := a
      simp only at hfst
      subst hfst
      exact ⟨ld, ha, (location_check_ok_iff hchk).mp rfl⟩
    · rintro ⟨ld, hmem, hall⟩
      obtain ⟨q, hq, hfst, hchk⟩ := forall₂_mem_left hf hmem
      obtain ⟨qn, qb⟩ := q
      simp only at hfst
      subst hfst
      have : qb = true := (location_check_ok_iff hchk).mpr hall
      subst this
      exact mem_trueNames.mpr hq
  · intro axes' hagree
    rw [locations_get_frame hagree]
    exact h

/-- C2 witness: the characterization instantiated at the discrete shutter
table with the `state` axis reading `"Open"`. -/
theorem spec_C2_witness :
    (∀ n, n ∈ trueNames [("open", true)] ↔
      ∃ ld, (n, ld) ∈ open_shutter_table ∧
        ∀ p ∈ ld, axis_test "d" (shutter_axes "Open") p.1 p.2 = .ok true) ∧
    (∀ axes', (∀ e ∈ open_shutter_table, ∀ p ∈ e.2,
        axes' p.1 = shutter_axes "Open" p.1) →
      locations_get "d" axes' open_shutter_table = .ok [("open", true)]) :=
  spec_C2 "d" (shutter_axes "Open") open_shutter_table
    [("open", true)] (by rfl)

/-- C7: `LocationSignal.get` is idempotent under unchanged axis state:
a second call with the same axis readings returns the same value the
first call returned (and stored), whatever value the signal held before
the first call. -/
theorem spec_C7 (pn : String) (axes : String → Option Axis)
    (table : List (String × List (String × TargetData)))
    (stored₀ v₁ stored₁ : PyVal)
    (h : LocationSignal_get pn axes table stored₀ = .ok (v₁, stored₁)) :
    LocationSignal_get pn axes table stored₁ = .ok (v₁, stored₁) := by
  simp only [LocationSignal_get] at h ⊢
  cases hg : locations_get pn axes table with
  | error e => rw [hg] at h; cases h
  | ok l => rw [hg] at h; exact h

/-- C7 witness: two successive reads of the shutter table with the
`state` axis reading `"Closed"` both return the all-false `Locations`
tuple. -/
theorem spec_C7_witness :
    LocationSignal_get "d" (shutter_axes "Closed") open_shutter_table
        (.locTuple [("open", false)]) =
      .ok (.locTuple [("open", false)], .locTuple [("open", false)]) :=
  spec_C7 "d" (shutter_axes "Closed") open_shutter_table (.str "stale") _ _
    (by rfl)

/-- C1: for every configured location and every outcome of the per-axis
set commands, the composite status returned by `LocationSignal.set` is
done exactly when every per-axis status is done, is not successful
whenever any one per-axis command fails (even if all others succeed),
and is never successful while any constituent is incomplete (partial
completion is never reported as success).  The hypothesis `hinv` is the
ophyd status invariant that a successful status is finished. -/
theorem spec_C1 (table : List (String × List (String × TargetData)))
    (sn : String) (axisSet : String → PyVal → Status) (value : String)
    (location_data : List (String × TargetData))
    (hl : List.lookup value table = some location_data)
    (hinv : ∀ a v, (axisSet a v).success = true → (axisSet a v).done = true) :
    ∃ issued st, LocationSignal_set table sn axisSet value = .ok (issued, st) ∧
      (st.done = true ↔
        ∀ p ∈ location_data, (axisSet p.1 p.2.target).done = true) ∧
      (∀ p ∈ location_data, (axisSet p.1 p.2.target).success = false →
        st.success = false) ∧
      (st.success = true → st.done = true ∧
        ∀ p ∈ location_data, (axisSet p.1 p.2.target).done = true) := by
  refine ⟨location_data.map fun p => (p.1, p.2.target),
    (location_data.map fun p => axisSet p.1 p.2.target).foldl andStatus
      { done := true, success := true },
    by simp [LocationSignal_set, hl], ?_, ?_, ?_⟩
  · rw [foldl_andStatus_done]
    simp only [Bool.true_and, List.all_eq_true, List.mem_map]
    constructor
    · rintro hall p hp
      exact hall _ ⟨p, hp, rfl⟩
    · rintro hall s ⟨p, hp, rfl⟩
      exact hall p hp
  · intro p hp hfail
    rw [foldl_andStatus_success]
    simp only [Bool.true_and]
    cases hall : (location_data.map fun p => axisSet p.1 p.2.target).all
        (fun s => s.success) with
    | false => rfl
    | true =>
      exfalso
      have := List.all_eq_true.mp hall _ (List.mem_map.mpr ⟨p, hp, rfl⟩)
      rw [hfail] at this
      cases this
  · intro hs
    rw [foldl_andStatus_success] at hs
    simp only [Bool.true_and, List.all_eq_true, List.mem_map] at hs
    have hdone : ∀ p ∈ location_data, (axisSet p.1 p.2.target).done = true :=
      fun p hp => hinv p.1 p.2.target (hs _ ⟨p, hp, rfl⟩)
    refine ⟨?_, hdone⟩
    rw [foldl_andStatus_done]
    simp only [Bool.true_and, List.all_eq_true, List.mem_map]
    rintro s ⟨p, hp, rfl⟩
    exact hdone p hp

/-- C1 witness: the aggregation characterization instantiated at the
shutter table with every per-axis set reported done and successful. -/
theorem spec_C1_witness :
    ∃ issued st,
      LocationSignal_set open_shutter_table "locations"
          (fun _ _ => { done := true, success := true }) "open" =
        .ok (issued, st) ∧
      (st.done = true ↔
        ∀ p ∈ [(("state" : String),
            (⟨.str "Open", .none⟩ : TargetData))],
          (Status.done { done := true, success := true }) = true) ∧
      (∀ p ∈ [(("state" : String), (⟨.str "Open", .none⟩ : TargetData))],
        (Status.success { done := true, success := true }) = false →
          st.success = false) ∧
      (st.success = true → st.done = true ∧
        ∀ p ∈ [(("state" : String), (⟨.str "Open", .none⟩ : TargetData))],
          (Status.done { done := true, success := true }) = true) :=
  spec_C1 open_shutter_table "locations"
    (fun _ _ => { done := true, success := true }) "open"
    [("state", ⟨.str "Open", .none⟩)] (by rfl) (fun _ _ _ => rfl)

/-- C4: for every name that is not a key of the location table, both
`LocationSignal.set` and `set_location` fail with a `KeyError` whose
message contains every configured location name, and no per-axis set
command is issued. -/
theorem spec_C4 (table : List (String × List (String × TargetData)))
    (sn : String) (axisSet : String → PyVal → Status)
    (deviceName value : String)
    (h : value ∉ table.map Prod.fst) :
    (LocationSignal_set table sn axisSet value =
      .error (.keyError (set_keyerror_msg sn value (table.map Prod.fst)))) ∧
    (issued_commands (LocationSignal_set table sn axisSet value) = []) ∧
    (∀ k ∈ table.map Prod.fst,
      contains_str k (set_keyerror_msg sn value (table.map Prod.fst))) ∧
    (set_location table deviceName value =
      .error (.keyError
        (set_location_keyerror_msg deviceName value (table.map Prod.fst)))) ∧
    (∀ k ∈ table.map Prod.fst,
      contains_str k
        (set_location_keyerror_msg deviceName value (table.map Prod.fst))) := by
  have hn := lookup_eq_none_of_not_mem h
  refine ⟨by simp [LocationSignal_set, hn],
    by simp [issued_commands, LocationSignal_set, hn],
    fun k hk => ?_, by simp [set_location, hn], fun k hk => ?_⟩
  · unfold set_keyerror_msg
    exact contains_str_append_left _ (contains_str_pyReprStrList hk)
  · unfold set_location_keyerror_msg
    exact contains_str_append_left _ (contains_str_pyReprStrList hk)

/-- C4 witness: the unknown-location failure instantiated at the shutter
table with the unknown name `"closed"`. -/
theorem spec_C4_witness :
    (LocationSignal_set open_shutter_table "locations"
        (fun _ _ => { done := true, success := true }) "closed" =
      .error (.keyError (set_keyerror_msg "locations" "closed"
        (open_shutter_table.map Prod.fst)))) ∧
    (issued_commands (LocationSignal_set open_shutter_table "locations"
        (fun _ _ => { done := true, success := true }) "closed") = []) ∧
    (∀ k ∈ open_shutter_table.map Prod.fst,
      contains_str k (set_keyerror_msg "locations" "closed"
        (open_shutter_table.map Prod.fst))) ∧
    (set_location open_shutter_table "shutter" "closed" =
      .error (.keyError (set_location_keyerror_msg "shutter" "closed"
        (open_shutter_table.map Prod.fst)))) ∧
    (∀ k ∈ open_shutter_table.map Prod.fst,
      contains_str k (set_location_keyerror_msg "shutter" "closed"
        (open_shutter_table.map Prod.fst))) :=
  spec_C4 open_shutter_table "locations"
    (fun _ _ => { done := true, success := true }) "shutter" "closed"
    (by decide)

/-- C5: for every configured location, `LocationSignal.set` issues
exactly one set-target command per axis referenced in the location's
spec (in table order, with that axis's target), and no command to any
other axis, however many axes the device has. -/
theorem spec_C5 (table : List (String × List (String × TargetData)))
    (sn : String) (axisSet : String → PyVal → Status) (value : String)
    (location_data : List (String × TargetData))
    (hl : List.lookup value table = some location_data)
    (hnd : (location_data.map Prod.fst).Nodup) :
    ∃ st, LocationSignal_set table sn axisSet value =
        .ok (location_data.map fun p => (p.1, p.2.target), st) ∧
      ((location_data.map fun p => (p.1, p.2.target)).map Prod.fst =
        location_data.map Prod.fst) ∧
      (∀ a ∈ location_data.map Prod.fst,
        ((location_data.map fun p => (p.1, p.2.target)).map Prod.fst).count a
          = 1) ∧
      (∀ a, a ∉ location_data.map Prod.fst →
        ((location_data.map fun p => (p.1, p.2.target)).map Prod.fst).count a
          = 0) := by
  have hmm : (location_data.map fun p => (p.1, p.2.target)).map Prod.fst =
      location_data.map Prod.fst := by
    rw [List.map_map]
    rfl
  refine ⟨(location_data.map fun p => axisSet p.1 p.2.target).foldl andStatus
      { done := true, success := true },
    by simp [LocationSignal_set, hl], hmm, ?_, ?_⟩
  · intro a ha
    rw [hmm]
    exact List.count_eq_one_of_mem hnd ha
  · intro a ha
    rw [hmm]
    exact List.count_eq_zero_of_not_mem ha

/-- C5 witness: the fan-out of the shutter table's single location is
exactly one command, to the `state` axis. -/
theorem spec_C5_witness :
    ∃ st, LocationSignal_set open_shutter_table "locations"
        (fun _ _ => { done := true, success := true }) "open" =
        .ok ([(("state" : String),
          (⟨.str "Open", .none⟩ : TargetData))].map fun p =>
            (p.1, p.2.target), st) ∧
      (([(("state" : String),
          (⟨.str "Open", .none⟩ : TargetData))].map fun p =>
            (p.1, p.2.target)).map Prod.fst =
        [(("state" : String),
          (⟨.str "Open", .none⟩ : TargetData))].map Prod.fst) ∧
      (∀ a ∈ [(("state" : String),
          (⟨.str "Open", .none⟩ : TargetData))].map Prod.fst,
        (([(("state" : String),
            (⟨.str "Open", .none⟩ : TargetData))].map fun p =>
              (p.1, p.2.target)).map Prod.fst).count a = 1) ∧
      (∀ a, a ∉ [(("state" : String),
          (⟨.str "Open", .none⟩ : TargetData))].map Prod.fst →
        (([(("state" : String),
            (⟨.str "Open", .none⟩ : TargetData))].map fun p =>
              (p.1, p.2.target)).map Prod.fst).count a = 0) :=
  spec_C5 open_shutter_table "locations"
    (fun _ _ => { done := true, success := true }) "open"
    [("state", ⟨.str "Open", .none⟩)] (by rfl) (by simp)

/-- C8: the capability probe of `LocationSignal.get` uses the `position`
attribute when the axis has one (even when `get()` is also available),
falls back to `get()` otherwise, and an axis with neither capability
makes the evaluation of any location referencing it fail with the
`AttributeError` rather than evaluate to a silent false. -/
theorem spec_C8 (pn n : String) (v : PyVal) (g : Option PyVal) (b : Bool)
    (axes : String → Option Axis) (d : TargetData)
    (rest : List (String × TargetData))
    (hax : axes n = some ⟨Option.none, Option.none, b⟩) :
    (axis_value pn n ⟨some v, g, b⟩ = .ok v) ∧
    (axis_value pn n ⟨Option.none, some v, b⟩ = .ok v) ∧
    (axis_value pn n ⟨Option.none, Option.none, b⟩ =
      .error (.attributeError (unsupported_axis_msg pn n))) ∧
    (location_check pn axes ((n, d) :: rest) =
      .error (.attributeError (unsupported_axis_msg pn n))) := by
  refine ⟨rfl, rfl, rfl, ?_⟩
  simp [location_check, axis_test, hax, axis_value]

/-- C8 witness: a `state` axis with neither `position` nor `get` makes
the evaluation of the shutter location fail with the `AttributeError`. -/
theorem spec_C8_witness :
    (axis_value "d" "state" ⟨some (.str "v"), some (.str "w"), false⟩ =
      .ok (.str "v")) ∧
    (axis_value "d" "state" ⟨Option.none, some (.str "v"), false⟩ =
      .ok (.str "v")) ∧
    (axis_value "d" "state" ⟨Option.none, Option.none, false⟩ =
      .error (.attributeError (unsupported_axis_msg "d" "state"))) ∧
    (location_check "d"
        (fun m => if m = "state"
          then some ⟨Option.none, Option.none, false⟩ else Option.none)
        [("state", ⟨.str "Open", .none⟩)] =
      .error (.attributeError (unsupported_axis_msg "d" "state"))) := by
  have h := spec_C8 "d" "state" (.str "v") (some (.str "w")) false
    (fun m => if m = "state"
      then some ⟨Option.none, Option.none, false⟩ else Option.none)
    ⟨.str "Open", .none⟩ [] (by rfl)
  exact ⟨h.1, h.2.1, h.2.2.1, h.2.2.2⟩

/-- C9: the membership test applied by `LocationSignal.get` is selected
by the runtime type of the axis value: the strict interval test for
float values, Python equality for int and string values, the membership
test over the nested `Locations` tuple for a nested location signal, and
every other runtime type (here `None`, an arbitrary foreign type, and a
tuple on a non-location axis) fails with the `ValueError` rather than
evaluating to anything. -/
theorem spec_C9 (pn : String) (d : TargetData) (isLocSig : Bool)
    (q t tol : ℚ) (n : ℤ) (s tag : String) (fs : List (String × Bool))
    (ht : pyNum d.target = some t) (htol : pyNum d.tol = some tol) :
    ((value_check pn isLocSig d (.float q) = .ok true) ↔
      (t - tol < q ∧ q < t + tol)) ∧
    (value_check pn false d (.int n) = .ok (pyEq d.target (.int n))) ∧
    (value_check pn false d (.str s) = .ok (pyEq d.target (.str s))) ∧
    (value_check pn true d (.locTuple fs) =
      .ok (fs.any fun x => pyEq d.target (.bool x.2))) ∧
    (value_check pn false d (.other tag) =
      .error (.valueError (unsupported_value_msg pn tag))) ∧
    (value_check pn false d PyVal.none =
      .error (.valueError (unsupported_value_msg pn "None"))) ∧
    (value_check pn false d (.locTuple fs) =
      .error (.valueError (unsupported_value_msg pn "tuple"))) := by
  refine ⟨?_, rfl, rfl, rfl, rfl, rfl, rfl⟩
  simp [value_check, ht, htol]

/-- C9 witness: the dispatch instantiated at the numeric spec
`(1.0, 1.0)`. -/
theorem spec_C9_witness :
    ((value_check "d" false ⟨.float 1, .float 1⟩ (.float 1) = .ok true) ↔
      ((1 : ℚ) - 1 < 1 ∧ (1 : ℚ) < 1 + 1)) ∧
    (value_check "d" false ⟨.float 1, .float 1⟩ (.int 0) =
      .ok (pyEq (.float 1) (.int 0))) ∧
    (value_check "d" false ⟨.float 1, .float 1⟩ (.str "s") =
      .ok (pyEq (.float 1) (.str "s"))) ∧
    (value_check "d" true ⟨.float 1, .float 1⟩ (.locTuple []) =
      .ok (List.any ([] : List (String × Bool)) fun x =>
        pyEq (.float 1) (.bool x.2))) ∧
    (value_check "d" false ⟨.float 1, .float 1⟩ (.other "ndarray") =
      .error (.valueError (unsupported_value_msg "d" "ndarray"))) ∧
    (value_check "d" false ⟨.float 1, .float 1⟩ PyVal.none =
      .error (.valueError (unsupported_value_msg "d" "None"))) ∧
    (value_check "d" false ⟨.float 1, .float 1⟩ (.locTuple []) =
      .error (.valueError (unsupported_value_msg "d" "tuple"))) :=
  spec_C9 "d" ⟨.float 1, .float 1⟩ false 1 1 1 0 "s" "ndarray" [] rfl rfl

/-- Helper: a successful `namedtuple` call validated every field name. -/
theorem namedtuple_ok_all_field_ok {tn : String} {fns l : List String}
    (h : namedtuple tn fns = .ok l) :
    fns.all namedtuple_field_ok = true := by
  unfold namedtuple at h
  split at h
  · cases h
  · split at h
    · cases h
    · rename_i h2
      simpa using h2

/-- C10: a `locations_data` mapping whose keys are not all valid Python
identifiers (a name with a space, a name starting with a digit, ...)
makes `DeviceWithLocations.__init__` fail while building the internal
`Locations` namedtuple, so every successfully constructed
`DeviceWithLocations` has only identifier-valid location names — a
constraint the spec's data model does not state. -/
theorem spec_C10 (data : List (String × List (String × TargetData))) :
    ((¬ ∀ k ∈ data.map Prod.fst, isPyIdentifier k = true) →
      ∃ msg, DeviceWithLocations_init data = .error (.valueError msg)) ∧
    (∀ st, DeviceWithLocations_init data = .ok st →
      ∀ k ∈ st.locations_data.map Prod.fst, isPyIdentifier k = true) := by
  constructor
  · intro hbad
    cases hall : (data.map Prod.fst).all namedtuple_field_ok with
    | true =>
      exfalso
      apply hbad
      intro k hk
      have hok := List.all_eq_true.mp hall k hk
      unfold namedtuple_field_ok at hok
      exact Bool.and_elim_left (Bool.and_elim_left hok)
    | false =>
      refine ⟨"Type names and field names must be valid identifiers", ?_⟩
      have h1 : (!(isPyIdentifier "Locations") ||
          pyKeywords.contains "Locations") = false := by decide
      unfold DeviceWithLocations_init namedtuple
      rw [hall, h1]
      rfl
  · intro st hok k hk
    unfold DeviceWithLocations_init at hok
    cases hnt : namedtuple "Locations" (data.map Prod.fst) with
    | error e => rw [hnt] at hok; cases hok
    | ok fields =>
      rw [hnt] at hok
      cases hok
      have hall := namedtuple_ok_all_field_ok hnt
      have hk' : k ∈ data.map Prod.fst := hk
      have hok2 := List.all_eq_true.mp hall k hk'
      unfold namedtuple_field_ok at hok2
      exact Bool.and_elim_left (Bool.and_elim_left hok2)

/-- C10 witness: construction with the key `"bad name"` (not an
identifier) fails, instantiating both directions at the concrete table
`[("in", []), ("bad name", [])]`. -/
theorem spec_C10_witness :
    ((¬ ∀ k ∈ ([(("in" : String),
          ([] : List (String × TargetData))),
        ("bad name", [])]).map Prod.fst, isPyIdentifier k = true) →
      ∃ msg, DeviceWithLocations_init
          [("in", []), ("bad name", [])] = .error (.valueError msg)) ∧
    (∀ st, DeviceWithLocations_init
        [(("in" : String), ([] : List (String × TargetData))),
          ("bad name", [])] = .ok st →
      ∀ k ∈ st.locations_data.map Prod.fst, isPyIdentifier k = true) :=
  spec_C10 [("in", []), ("bad name", [])]

end AriSxn
